import Mathlib

/-!
Verification of the `gpu-stat` core: a shallow embedding in Lean 4 of the
parsing, collection-loop, remote-command and storage logic of
`gpu_stat/data_collector.py`, `gpu_stat/ssh_client.py` and
`gpu_stat/data_store.py`, together with theorems settling the behavioural
claims of the specification.

Modelling conventions:
* Python strings are Lean `String`s; `str.strip`/`str.split` are modelled by
  structurally recursive functions over the character list so that all
  definitions evaluate by kernel reduction.
* Numeric fields produced by `float(...)` are kept as their (validated)
  source text: the claims under study depend only on whether the conversion
  succeeds, never on the numeric value.  `int(...)` values are kept as `Int`.
* Fallible Python code (unpacking errors, `int`/`float` conversion errors)
  is modelled with `Except String`, the error being the exception message.
* Effects on the outside world (SSH traffic, `time.sleep`, the filesystem)
  are modelled by explicit oracles/trace inputs and action lists.
-/

/-- Characters stripped by Python `str.strip()` (ASCII whitespace; the blobs
at hand are plain ASCII CSV). -/
def pyWhitespace (c : Char) : Bool :=
  c = ' ' || c = '\t' || c = '\n' || c = '\r' || c = '\x0b' || c = '\x0c'

/-- Python `str.strip()`. -/
def pystrip (s : String) : String :=
  String.mk (((s.data.dropWhile pyWhitespace).reverse.dropWhile pyWhitespace).reverse)

/-- Helper for `pysplit`: the accumulator holds the current field reversed. -/
def splitAux (sep : Char) : List Char → List Char → List String
  | [], acc => [String.mk acc.reverse]
  | c :: cs, acc =>
    if c = sep then String.mk acc.reverse :: splitAux sep cs []
    else splitAux sep cs (c :: acc)

/-- Python `str.split(sep)` for a one-character separator (the source only
splits on `"\n"` and `","`).  Like Python, `"".split(sep) == [""]`. -/
def pysplit (sep : Char) (s : String) : List String :=
  splitAux sep s.data []

/-- `[p.strip() for p in line.split(",")]` from the source. -/
def splitTrim (line : String) : List String :=
  (pysplit ',' line).map pystrip

/-- Value of a nonempty run of decimal digits. -/
def digitsVal (cs : List Char) : Nat :=
  cs.foldl (fun n c => n * 10 + (c.toNat - '0'.toNat)) 0

/-- A nonempty, all-decimal-digit character run. -/
def isDigits (cs : List Char) : Bool :=
  !cs.isEmpty && cs.all Char.isDigit

/-- Python `int(s)` on an already-stripped string: optional sign followed by
decimal digits.  (Numeric-literal underscores and non-ASCII digits are not
modelled; the vendor CSV only produces plain decimal indices/pids.)
Returns `none` exactly when `int()` would raise `ValueError`. -/
def pyInt? (s : String) : Option Int :=
  match s.data with
  | '+' :: rest => if isDigits rest then some (Int.ofNat (digitsVal rest)) else none
  | '-' :: rest => if isDigits rest then some (-(Int.ofNat (digitsVal rest))) else none
  | cs => if isDigits cs then some (Int.ofNat (digitsVal cs)) else none

/-- Whether `int(s)` succeeds. -/
def pyIntOk (s : String) : Bool := (pyInt? s).isSome

/-- Split a character list on a separator character. -/
def splitListOn (sep : Char) : List Char → List Char → List (List Char)
  | [], acc => [acc.reverse]
  | c :: cs, acc =>
    if c = sep then acc.reverse :: splitListOn sep cs []
    else splitListOn sep cs (c :: acc)

/-- Exponent part of a float literal: optional sign, then digits. -/
def expPartOk (cs : List Char) : Bool :=
  match cs with
  | '+' :: r => isDigits r
  | '-' :: r => isDigits r
  | r => isDigits r

/-- Mantissa of a float literal: digits, optionally with one dot, at least
one digit somewhere. -/
def mantissaOk (cs : List Char) : Bool :=
  match splitListOn '.' cs [] with
  | [a] => isDigits a
  | [a, b] => a.all Char.isDigit && b.all Char.isDigit && !(a.isEmpty && b.isEmpty)
  | _ => false

/-- Finite float literal (sign already removed): mantissa with optional
`e`/`E` exponent. -/
def floatCoreOk (cs : List Char) : Bool :=
  match splitListOn 'e' (cs.map Char.toLower) [] with
  | [m] => mantissaOk m
  | [m, ex] => mantissaOk m && expPartOk ex
  | _ => false

/-- Whether Python `float(s)` succeeds on an already-stripped string:
optional sign, then a finite literal or `inf`/`infinity`/`nan`
(case-insensitive).  Numeric-literal underscores are not modelled. -/
def pyFloatOk (s : String) : Bool :=
  let core := match s.data with
    | '+' :: r => r
    | '-' :: r => r
    | r => r
  let low := core.map Char.toLower
  low == "inf".data || low == "infinity".data || low == "nan".data || floatCoreOk core

/-- Python dict assignment `m[k] = v` on an association list: replaces the
binding in place or appends a fresh one.  Only lookup (`dictGet`) matters to
the parser. -/
def dictInsert : List (String × String) → String → String → List (String × String)
  | [], k, v => [(k, v)]
  | (k0, v0) :: rest, k, v =>
    if k0 = k then (k, v) :: rest else (k0, v0) :: dictInsert rest k v

/-- Python dict lookup `m.get(k)`. -/
def dictGet : List (String × String) → String → Option String
  | [], _ => none
  | (k0, v0) :: rest, k => if k0 = k then some v0 else dictGet rest k

/-- One process entry built at `data_collector.py:142-146`.  `used_memory`
keeps the text whose `float(...)` conversion succeeded. -/
structure ProcessData where
  pid : Int
  name : String
  used_memory : String
deriving DecidableEq

/-- One GPU entry built at `data_collector.py:118-132`.  Fields produced by
`float(...)` keep the validated source text; `fan_speed = none` models the
`0` used when the fan field is empty (`float(fan) if fan else 0`). -/
structure GpuData where
  index : Int
  name : String
  uuid : String
  utilization_gpu : String
  utilization_memory : String
  memory_total : String
  memory_used : String
  memory_free : String
  temperature : String
  power_draw : String
  power_limit : String
  fan_speed : Option String
  processes : List ProcessData
deriving DecidableEq

/-- One line of the UUID table, `data_collector.py:92-97`: blank lines are
skipped; `idx, uuid = parts` after a `len(parts) >= 2` guard unpacks exactly
two fields and raises `ValueError` on more than two. -/
def parseUuidLine (m : List (String × String)) (line : String) :
    Except String (List (String × String)) :=
  if pystrip line = "" then .ok m
  else
    match splitTrim line with
    | [idx, uuid] => .ok (dictInsert m idx uuid)
    | parts =>
      if parts.length ≥ 2 then .error "ValueError: too many values to unpack (expected 2)"
      else .ok m

/-- The UUID-table loop over its lines. -/
def parseUuidGo (m : List (String × String)) : List String → Except String (List (String × String))
  | [] => .ok m
  | line :: rest =>
    match parseUuidLine m line with
    | .ok m2 => parseUuidGo m2 rest
    | .error e => .error e

/-- `gpu_uuid_output.strip().split("\n")` fed through the UUID loop. -/
def parseUuidMap (blob : String) : Except String (List (String × String)) :=
  parseUuidGo [] (pysplit '\n' (pystrip blob))

/-- `int()` failure message. -/
def intError (s : String) : String :=
  "ValueError: invalid literal for int() with base 10: " ++ s

/-- `float()` failure message. -/
def floatError (s : String) : String :=
  "ValueError: could not convert string to float: " ++ s

/-- All numeric conversions of a stats row succeed (the conversions of
`data_collector.py:118-130` in evaluation order; the fan field is only
converted when nonempty). -/
def statsConvOk (idx util_gpu util_mem mem_total mem_used mem_free temp
    power_draw power_limit fan : String) : Bool :=
  pyIntOk idx && pyFloatOk util_gpu && pyFloatOk util_mem && pyFloatOk mem_total &&
    pyFloatOk mem_used && pyFloatOk mem_free && pyFloatOk temp && pyFloatOk power_draw &&
    pyFloatOk power_limit && (fan == "" || pyFloatOk fan)

/-- The first failing conversion of a stats row, in Python evaluation order. -/
def statsConvErr (idx util_gpu util_mem mem_total mem_used mem_free temp
    power_draw power_limit fan : String) : String :=
  if !pyIntOk idx then intError idx
  else if !pyFloatOk util_gpu then floatError util_gpu
  else if !pyFloatOk util_mem then floatError util_mem
  else if !pyFloatOk mem_total then floatError mem_total
  else if !pyFloatOk mem_used then floatError mem_used
  else if !pyFloatOk mem_free then floatError mem_free
  else if !pyFloatOk temp then floatError temp
  else if !pyFloatOk power_draw then floatError power_draw
  else if !pyFloatOk power_limit then floatError power_limit
  else floatError fan

/-- One line of the stats table, `data_collector.py:100-133`: blank lines and
lines with fewer than 11 comma-separated fields are skipped; a line with
exactly 11 fields is converted into a `GpuData` (raising on a failed
numeric conversion); a line with more than 11 fields raises `ValueError` at
the tuple unpacking.  The uuid is `uuid_map.get(idx, "unknown")`. -/
def parseStatsLine (m : List (String × String)) (line : String) :
    Except String (Option GpuData) :=
  if pystrip line = "" then .ok none
  else
    match splitTrim line with
    | [idx, name, util_gpu, util_mem, mem_total, mem_used, mem_free, temp,
       power_draw, power_limit, fan] =>
      if statsConvOk idx util_gpu util_mem mem_total mem_used mem_free temp
          power_draw power_limit fan then
        .ok (some {
          index := (pyInt? idx).getD 0
          name := name
          uuid := (dictGet m idx).getD "unknown"
          utilization_gpu := util_gpu
          utilization_memory := util_mem
          memory_total := mem_total
          memory_used := mem_used
          memory_free := mem_free
          temperature := temp
          power_draw := power_draw
          power_limit := power_limit
          fan_speed := if fan = "" then none else some fan
          processes := [] })
      else
        .error (statsConvErr idx util_gpu util_mem mem_total mem_used mem_free temp
          power_draw power_limit fan)
    | parts =>
      if parts.length ≥ 11 then .error "ValueError: too many values to unpack (expected 11)"
      else .ok none

/-- The stats loop: `gpus.append(gpu_data)` over the lines. -/
def parseStatsGo (m : List (String × String)) (gpus : List GpuData) :
    List String → Except String (List GpuData)
  | [] => .ok gpus
  | line :: rest =>
    match parseStatsLine m line with
    | .ok none => parseStatsGo m gpus rest
    | .ok (some g) => parseStatsGo m (gpus ++ [g]) rest
    | .error e => .error e

/-- `gpu_stats_output.strip().split("\n")` fed through the stats loop. -/
def parseStats (m : List (String × String)) (blob : String) : Except String (List GpuData) :=
  parseStatsGo m [] (pysplit '\n' (pystrip blob))

/-- Numeric conversions of a process row succeed. -/
def procConvOk (pid used_memory : String) : Bool :=
  pyIntOk pid && pyFloatOk used_memory

/-- The first failing conversion of a process row. -/
def procConvErr (pid used_memory : String) : String :=
  if !pyIntOk pid then intError pid else floatError used_memory

/-- One line of the process table, `data_collector.py:136-146`: blank lines
and lines with fewer than 4 fields are skipped; exactly 4 fields build a
`(gpu_uuid, ProcessData)` row; more than 4 raise at the unpacking. -/
def parseProcLine (line : String) : Except String (Option (String × ProcessData)) :=
  if pystrip line = "" then .ok none
  else
    match splitTrim line with
    | [pid, name, gpu_uuid, used_memory] =>
      if procConvOk pid used_memory then
        .ok (some (gpu_uuid,
          { pid := (pyInt? pid).getD 0, name := name, used_memory := used_memory }))
      else .error (procConvErr pid used_memory)
    | parts =>
      if parts.length ≥ 4 then .error "ValueError: too many values to unpack (expected 4)"
      else .ok none

/-- `data_collector.py:149-152`: append the process to the first GPU (in
list order) whose uuid matches, then `break`; no match appends nowhere. -/
def attachProcess : List GpuData → String → ProcessData → List GpuData
  | [], _, _ => []
  | g :: rest, gpu_uuid, proc =>
    if g.uuid = gpu_uuid then { g with processes := g.processes ++ [proc] } :: rest
    else g :: attachProcess rest gpu_uuid proc

/-- The process loop over its lines. -/
def parseProcsGo (gpus : List GpuData) : List String → Except String (List GpuData)
  | [] => .ok gpus
  | line :: rest =>
    match parseProcLine line with
    | .ok none => parseProcsGo gpus rest
    | .ok (some (u, p)) => parseProcsGo (attachProcess gpus u p) rest
    | .error e => .error e

/-- `process_output.strip().split("\n")` fed through the process loop. -/
def parseProcs (gpus : List GpuData) (blob : String) : Except String (List GpuData) :=
  parseProcsGo gpus (pysplit '\n' (pystrip blob))

/-- The parsing portion of `GPUDataCollector.collect_gpu_stats`
(`data_collector.py:85-162`), given the three command outputs: UUID map
first, then the stats table, then the process table.  An uncaught
`ValueError` anywhere propagates out of the call (the method has no
`try`). -/
def collectParse (gpu_stats_output gpu_uuid_output process_output : String) :
    Except String (List GpuData) :=
  match parseUuidMap gpu_uuid_output with
  | .error e => .error e
  | .ok uuid_map =>
    match parseStats uuid_map gpu_stats_output with
    | .error e => .error e
    | .ok gpus => parseProcs gpus process_output

/-- Whether an `Except` computation completed without raising. -/
def parseOk {α : Type} : Except String α → Bool
  | .ok _ => true
  | .error _ => false

/-- The `GpuData` (if any) a single stats line contributes. -/
def statsLineRecord? (m : List (String × String)) (line : String) : Option GpuData :=
  match parseStatsLine m line with
  | .ok r => r
  | .error _ => none

/-- The `(gpu_uuid, ProcessData)` row (if any) a single process line
contributes. -/
def procLineRow? (line : String) : Option (String × ProcessData) :=
  match parseProcLine line with
  | .ok r => r
  | .error _ => none

/-- A GPU record with its process list cleared (used to state that process
attachment changes nothing but the `processes` fields). -/
def withoutProcs (g : GpuData) : GpuData := { g with processes := [] }

/-- Folding the extracted process rows through `attachProcess`. -/
def procFold (gpus : List GpuData) (rows : List (String × ProcessData)) : List GpuData :=
  rows.foldl (fun gs r => attachProcess gs r.1 r.2) gpus

/-- The paramiko session handle: `transportActive = none` models
`get_transport() is None`, `some b` a transport whose `is_active()` is `b`. -/
structure SshSession where
  transportActive : Option Bool
deriving DecidableEq

/-- The `SSHClient` object state: `client = none` models `self.client is
None`. -/
structure SshState where
  client : Option SshSession
deriving DecidableEq

/-- The liveness test of `ssh_client.py:79-83`: no client, no transport, or
an inactive transport. -/
def needsConnect (st : SshState) : Bool :=
  match st.client with
  | none => true
  | some s =>
    match s.transportActive with
    | none => true
    | some active => !active

/-- Outcome of `exec_command` plus the stream reads, as an oracle: either an
exit code with raw stdout/stderr, or a transport exception. -/
inductive ExecOutcome where
  | done (exit_code : Int) (stdout stderr : String)
  | raised (msg : String)
deriving DecidableEq

/-- External-world oracle for one `execute_command` call: whether a
`connect()` attempt would succeed, and what running the command would do. -/
structure ExecEnv where
  connectOk : Bool
  outcome : ExecOutcome
deriving DecidableEq

/-- `SSHClient.connect` (`ssh_client.py:43-67`): a fresh `paramiko.SSHClient`
is stored in `self.client` in both cases; on success its transport is live
(keepalive set), on failure `connect` raised before a transport existed. -/
def sshConnect (ok : Bool) (_st : SshState) : SshState × Bool :=
  if ok then ({ client := some { transportActive := some true } }, true)
  else ({ client := some { transportActive := none } }, false)

/-- Observable actions of one `execute_command` call. -/
inductive SshAction where
  | connectCall
  | execCall
deriving DecidableEq

/-- The command-running part of `execute_command` (`ssh_client.py:88-104`):
stdout/stderr are stripped, a nonzero exit code yields `false`, and a caught
exception yields `(false, "", str(e))`. -/
def execResult : ExecOutcome → Bool × String × String
  | .done exit_code stdout stderr => (exit_code == 0, pystrip stdout, pystrip stderr)
  | .raised msg => (false, "", msg)

/-- Result of one `execute_command` call: new object state, the returned
`(success, stdout, stderr)` triple, and the actions performed in order. -/
structure ExecCall where
  state : SshState
  result : Bool × String × String
  actions : List SshAction
deriving DecidableEq

/-- `SSHClient.execute_command` (`ssh_client.py:69-104`). -/
def execute_command (env : ExecEnv) (st : SshState) : ExecCall :=
  if needsConnect st then
    let c := sshConnect env.connectOk st
    if c.2 then
      { state := c.1, result := execResult env.outcome
        actions := [SshAction.connectCall, SshAction.execCall] }
    else
      { state := c.1, result := (false, "", "Unable to connect to server")
        actions := [SshAction.connectCall] }
  else
    { state := st, result := execResult env.outcome, actions := [SshAction.execCall] }

/-- Outcome of one iteration body of the collection loop, as an input trace
abstracting the remote side: `success b` means `collect_gpu_stats` returned
data and the callback (if any) returned normally with result `b`; `failure`
means it returned `None`; `interrupt` is a `KeyboardInterrupt`; `exn` is any
other exception raised inside the `try` (e.g. a conversion `ValueError`
escaping the parse, or a callback crash). -/
inductive CycleEvent where
  | success (sinkOk : Bool)
  | failure
  | interrupt
  | exn
deriving DecidableEq

/-- Observable side effects of the loop. -/
inductive LoopAction where
  | sleep
  | disconnect
deriving DecidableEq

/-- How the `while True` loop of `start_collection` exited. -/
inductive ExitKind where
  | giveUp
  | interrupted
  | errorBreak
deriving DecidableEq

/-- Exit data: which `break` fired, and the value of `retry_count` at that
moment. -/
structure LoopExit where
  kind : ExitKind
  finalRetry : Nat
deriving DecidableEq

/-- The `while True` loop of `GPUDataCollector.start_collection`
(`data_collector.py:182-218`), driven by one `CycleEvent` per iteration.
`none` means the supplied trace ended before the loop exited (the loop would
keep running).  The action list records the `time.sleep(interval)` calls:
a successful cycle sleeps, a below-limit failure `continue`s without
sleeping. -/
def collectLoop (max_retries : Nat) : Nat → List CycleEvent → Option (LoopExit × List LoopAction)
  | _, [] => none
  | retry_count, e :: rest =>
    match e with
    | .success _ =>
      (collectLoop max_retries 0 rest).map (fun p => (p.1, LoopAction.sleep :: p.2))
    | .failure =>
      if retry_count + 1 ≥ max_retries then
        some ({ kind := ExitKind.giveUp, finalRetry := retry_count + 1 }, [])
      else collectLoop max_retries (retry_count + 1) rest
    | .interrupt => some ({ kind := ExitKind.interrupted, finalRetry := retry_count }, [])
    | .exn => some ({ kind := ExitKind.errorBreak, finalRetry := retry_count }, [])

/-- `start_collection` (`data_collector.py:164-222`): the loop starts with
`retry_count = 0`; the `finally` block runs `self.ssh_client.disconnect()`
exactly once on every exit path. -/
def startCollection (max_retries : Nat) (events : List CycleEvent) :
    Option (LoopExit × List LoopAction) :=
  (collectLoop max_retries 0 events).map (fun p => (p.1, p.2 ++ [LoopAction.disconnect]))

/-- The running value of `retry_count` after each event of a trace, starting
from `r`: a failure increments it, anything else leaves it at `0` for the
next cycle. -/
def failStreaks : Nat → List CycleEvent → List Nat
  | _, [] => []
  | r, e :: rest =>
    match e with
    | .failure => (r + 1) :: failStreaks (r + 1) rest
    | _ => 0 :: failStreaks 0 rest

/-- Whether a run of the loop from a fresh start exits through the
max-retries give-up `break`. -/
def reachesGiveUp (max_retries : Nat) (events : List CycleEvent) : Bool :=
  match collectLoop max_retries 0 events with
  | some q => decide (q.1.kind = ExitKind.giveUp)
  | none => false

/-- On-disk paths used by `DataStore` under `base_dir`.  The two format
strings `gpu_stats_<date>.csv` and `gpu_<idx>_processes_<date>.csv` can
never produce the same file name, so paths are modelled structurally. -/
inductive StorePath where
  | stats (server date : String)
  | procs (server : String) (gpu_index : Int) (date : String)
deriving DecidableEq

/-- One CSV line as written by `store_data`: a header, a GPU stats row
(`data_store.py:89-103`), or a process row (`data_store.py:128-134`). -/
inductive FileLine where
  | gpuHeader
  | gpuRow (timestamp : Option String) (gpu_index : Int) (gpu_name : String)
      (utilization_gpu utilization_memory memory_total memory_used memory_free
        temperature power_draw power_limit : String)
      (fan_speed : Option String) (process_count : Nat)
  | procHeader
  | procRow (timestamp : Option String) (gpu_index : Int) (pid : Int)
      (process_name : String) (used_memory : String)
deriving DecidableEq

/-- The dictionary handed to `store_data`: `data.get("server")` and
`data.get("timestamp")` may be absent (`none`); the collector always
supplies a `gpus` list. -/
structure SnapshotData where
  timestamp : Option String
  server : Option String
  gpus : List GpuData
deriving DecidableEq

/-- The filesystem under `base_dir`: the set of server directories created
so far, and file contents keyed by path. -/
structure FS where
  dirs : List String
  files : List (StorePath × List FileLine)
deriving DecidableEq

/-- File-content lookup (`os.path.exists` + reading). -/
def fsGet : List (StorePath × List FileLine) → StorePath → Option (List FileLine)
  | [], _ => none
  | (q, v) :: rest, p => if q = p then some v else fsGet rest p

/-- Overwrite-or-create a file's content. -/
def fsSet : List (StorePath × List FileLine) → StorePath → List FileLine →
    List (StorePath × List FileLine)
  | [], p, v => [(p, v)]
  | (q, w) :: rest, p, v => if q = p then (p, v) :: rest else (q, w) :: fsSet rest p v

/-- `os.makedirs(..., exist_ok=True)` for a server directory. -/
def addDir (ds : List String) (d : String) : List String :=
  if ds.contains d then ds else ds ++ [d]

/-- The stats CSV row written for one GPU (`data_store.py:89-103`):
`process_count` is `len(gpu.get("processes", []))`. -/
def rowOf (timestamp : Option String) (gpu : GpuData) : FileLine :=
  FileLine.gpuRow timestamp gpu.index gpu.name gpu.utilization_gpu gpu.utilization_memory
    gpu.memory_total gpu.memory_used gpu.memory_free gpu.temperature gpu.power_draw
    gpu.power_limit gpu.fan_speed gpu.processes.length

/-- The lines appended to a process file for one GPU's process list
(`data_store.py:126-143`): the local `process_file_exists` flag writes the
header once before the first row if the file was absent. -/
def procLines (timestamp : Option String) (gpu_index : Int) :
    Bool → List ProcessData → List FileLine
  | _, [] => []
  | pfe, p :: rest =>
    (if pfe then [] else [FileLine.procHeader]) ++
      (FileLine.procRow timestamp gpu_index p.pid p.name p.used_memory ::
        procLines timestamp gpu_index true rest)

/-- The per-GPU process-file write (`data_store.py:116-143`): only when the
GPU has at least one process; `_get_server_dir` runs `makedirs` again. -/
def writeProcs (timestamp : Option String) (server_name date : String) (gpu : GpuData)
    (fs : FS) : FS :=
  if gpu.processes.isEmpty then fs
  else
    let fs1 : FS := { fs with dirs := addDir fs.dirs server_name }
    let process_file := StorePath.procs server_name gpu.index date
    let pfe := (fsGet fs1.files process_file).isSome
    { fs1 with files := (fsSet fs1.files process_file
        (((fsGet fs1.files process_file).getD []) ++
          procLines timestamp gpu.index pfe gpu.processes)) }

/-- The `for gpu in data.get("gpus", [])` loop of `store_data`
(`data_store.py:84-143`), with explicit state.  `failAt = some i` is the
I/O-failure oracle: opening the stats file for the `i`-th GPU record raises,
which the surrounding `except` turns into a `False` return; `.error`
carries the filesystem state at the raise.  The append of header-if-new plus
row models `writer.writeheader()` / `writer.writerow(row)` on a file opened
in `"a"` mode, with `file_exists` updated exactly as the local flag is. -/
def storeGpus (date : String) (failAt : Option Nat) (filename : StorePath)
    (timestamp : Option String) (server_name : String) :
    Nat → Bool → FS → List GpuData → Except FS FS
  | _, _, fs, [] => .ok fs
  | i, file_exists, fs, gpu :: rest =>
    if failAt = some i then .error fs
    else
      let fs1 : FS := { fs with files := (fsSet fs.files filename
        (((fsGet fs.files filename).getD []) ++
          ((if file_exists then [] else [FileLine.gpuHeader]) ++ [rowOf timestamp gpu]))) }
      let fs2 := writeProcs timestamp server_name date gpu fs1
      storeGpus date failAt filename timestamp server_name (i + 1) true fs2 rest

/-- `DataStore.store_data` (`data_store.py:60-149`): missing or empty server
name returns `False` before touching the filesystem; otherwise
`_get_date_filename` creates the server directory, `file_exists` is sampled
once, the GPU loop runs, and any exception is caught and turned into
`False`.  `date` is the wall-clock date at write time, fixed for the call. -/
def store_data (date : String) (failAt : Option Nat) (fs : FS) (data : SnapshotData) :
    FS × Bool :=
  match data.server with
  | none => (fs, false)
  | some server_name =>
    if server_name = "" then (fs, false)
    else
      let fs1 : FS := { fs with dirs := addDir fs.dirs server_name }
      let filename := StorePath.stats server_name date
      let file_exists := (fsGet fs1.files filename).isSome
      match storeGpus date failAt filename data.timestamp server_name 0 file_exists fs1
        data.gpus with
      | .ok fs2 => (fs2, true)
      | .error fs2 => (fs2, false)

/-- The filesystem state a `storeGpus` run ends in, whether or not it
raised. -/
def exceptState : Except FS FS → FS
  | .ok fs => fs
  | .error fs => fs

/-- `fs2` extends `fs`: every existing file's content survives as a prefix
(store only ever appends). -/
def fsExtends (fs fs2 : FS) : Prop :=
  ∀ p v, fsGet fs.files p = some v → ∃ w, fsGet fs2.files p = some (v ++ w)

/-- Header-line recogniser for the stats CSV. -/
def isGpuHeader : FileLine → Bool
  | FileLine.gpuHeader => true
  | _ => false

/-! ## Collection-loop lemmas -/

/-- A run of `j` consecutive failures from counter `r` with `r + j = m`
terminates through the give-up break, consuming nothing after it, with no
sleep and final counter `m`. -/
theorem collectLoop_fail_run : ∀ (j m r : Nat) (rest : List CycleEvent), 1 ≤ j → r + j = m →
    collectLoop m r (List.replicate j CycleEvent.failure ++ rest) =
      some ({ kind := ExitKind.giveUp, finalRetry := m }, []) := by
  intro j
  induction j with
  | zero => intro m r rest h1 _; omega
  | succ k ih =>
    intro m r rest _ hrm
    rw [List.replicate_succ, List.cons_append]
    by_cases hk : k = 0
    · subst hk
      simp only [collectLoop]
      rw [if_pos (by omega)]
      have : r + 1 = m := by omega
      rw [this]
    · simp only [collectLoop]
      rw [if_neg (by omega)]
      exact ih m (r + 1) rest (by omega) (by omega)

/-- Any number of successful cycles keeps the loop going with the counter at
`0`, contributing exactly one sleep each. -/
theorem collectLoop_success_run : ∀ (pre : List Bool) (m : Nat) (events : List CycleEvent),
    collectLoop m 0 (pre.map CycleEvent.success ++ events) =
      (collectLoop m 0 events).map
        (fun p => (p.1, List.replicate pre.length LoopAction.sleep ++ p.2)) := by
  intro pre
  induction pre with
  | nil =>
    intro m events
    cases h : collectLoop m 0 events with
    | none => simp [h]
    | some p => simp [h]
  | cons b pre ih =>
    intro m events
    rw [List.map_cons, List.cons_append]
    show (collectLoop m 0 (pre.map CycleEvent.success ++ events)).map
        (fun p => (p.1, LoopAction.sleep :: p.2)) = _
    rw [ih]
    cases h : collectLoop m 0 events with
    | none => simp
    | some p => simp [List.replicate_succ]

/-- If every running value of the failure counter stays below `max_retries`,
a terminating run cannot have exited through the give-up break. -/
theorem collectLoop_no_giveUp : ∀ (events : List CycleEvent) (m r : Nat),
    (∀ s ∈ failStreaks r events, s < m) →
    ∀ q, collectLoop m r events = some q → q.1.kind ≠ ExitKind.giveUp := by
  intro events
  induction events with
  | nil => intro m r _ q hq; simp [collectLoop] at hq
  | cons e rest ih =>
    intro m r h q hq
    cases e with
    | success b =>
      simp only [collectLoop] at hq
      cases hmap : collectLoop m 0 rest with
      | none => rw [hmap] at hq; simp at hq
      | some p =>
        rw [hmap] at hq
        have hq2 : some (p.1, LoopAction.sleep :: p.2) = some q := hq
        have hk : q.1 = p.1 := by cases hq2; rfl
        rw [hk]
        refine ih m 0 ?_ p hmap
        intro s hs
        exact h s (by simp [failStreaks, hs])
    | failure =>
      have hlt : r + 1 < m := h (r + 1) (by simp [failStreaks])
      simp only [collectLoop] at hq
      rw [if_neg (by omega)] at hq
      refine ih m (r + 1) ?_ q hq
      intro s hs
      exact h s (by simp [failStreaks, hs])
    | interrupt =>
      simp only [collectLoop] at hq
      have : q.1 = { kind := ExitKind.interrupted, finalRetry := r } := by
        cases hq; rfl
      rw [this]
      intro hcontra
      cases hcontra
    | exn =>
      simp only [collectLoop] at hq
      have : q.1 = { kind := ExitKind.errorBreak, finalRetry := r } := by
        cases hq; rfl
      rw [this]
      intro hcontra
      cases hcontra

/-! ## Collector-loop claims -/

/-- C1: in a run of the collection loop consisting of any number of
successful cycles followed by `max_retries ≥ 1` consecutive failed cycles,
the loop terminates at the last of those failures (events after them are
never consumed), `disconnect` is performed exactly once on that exit path,
and none of the failed cycles sleeps — the only sleeps are the ones of the
earlier successful cycles. -/
theorem c1_give_up_terminates : ∀ (m : Nat) (pre : List Bool) (rest : List CycleEvent),
    1 ≤ m →
    startCollection m (pre.map CycleEvent.success ++ (List.replicate m CycleEvent.failure ++ rest)) =
      some ({ kind := ExitKind.giveUp, finalRetry := m },
        List.replicate pre.length LoopAction.sleep ++ [LoopAction.disconnect]) := by
  intro m pre rest hm
  unfold startCollection
  rw [collectLoop_success_run, collectLoop_fail_run m m 0 rest hm (by omega)]
  simp

/-- C1 witness: with `max_retries = 3`, one successful cycle followed by
three failures gives up, disconnects once, and sleeps only after the
success. -/
theorem c1_give_up_terminates_witness :
    startCollection 3 (List.map CycleEvent.success [true] ++
        (List.replicate 3 CycleEvent.failure ++ [])) =
      some ({ kind := ExitKind.giveUp, finalRetry := 3 },
        List.replicate (List.length [true]) LoopAction.sleep ++ [LoopAction.disconnect]) :=
  c1_give_up_terminates 3 [true] [] (by decide)

/-- C2: a successful poll cycle resets the consecutive-failure counter to 0
(first conjunct: after a success the loop continues exactly as from a fresh
counter, plus the interval sleep), and consequently a run whose counter
values — `failStreaks` — always stay below `max_retries` never exits through
the give-up break (second conjunct). -/
theorem c2_success_resets_counter :
    (∀ (m r : Nat) (b : Bool) (rest : List CycleEvent),
      collectLoop m r (CycleEvent.success b :: rest) =
        (collectLoop m 0 rest).map (fun p => (p.1, LoopAction.sleep :: p.2))) ∧
    (∀ (m : Nat) (events : List CycleEvent),
      (∀ s ∈ failStreaks 0 events, s < m) → reachesGiveUp m events = false) := by
  constructor
  · intro m r b rest; rfl
  · intro m events h
    unfold reachesGiveUp
    cases heq : collectLoop m 0 events with
    | none => rfl
    | some q =>
      exact decide_eq_false (collectLoop_no_giveUp events m 0 h q heq)

/-- C2 witness: with `max_retries = 3`, the sequence fail, fail, succeed,
fail, fail, succeed never reaches the give-up exit. -/
theorem c2_success_resets_counter_witness :
    reachesGiveUp 3 [CycleEvent.failure, CycleEvent.failure, CycleEvent.success true,
      CycleEvent.failure, CycleEvent.failure, CycleEvent.success true] = false :=
  c2_success_resets_counter.2 3 _ (by decide)

/-- C8: an exception raised inside the loop body other than
`KeyboardInterrupt` (e.g. a callback crash or a conversion error escaping
the parse) makes the loop terminate at once — nothing further is consumed,
no sleep happens, the failure counter is not incremented (`finalRetry = r`),
the exit is the error break rather than the give-up — and the `finally`
block still performs the single disconnect. -/
theorem c8_exception_breaks_loop : ∀ (m r : Nat) (rest : List CycleEvent),
    collectLoop m r (CycleEvent.exn :: rest) =
      some ({ kind := ExitKind.errorBreak, finalRetry := r }, []) ∧
    startCollection m (CycleEvent.exn :: rest) =
      some ({ kind := ExitKind.errorBreak, finalRetry := 0 }, [LoopAction.disconnect]) :=
  fun _ _ _ => ⟨rfl, rfl⟩

/-! ## Remote-command-client claim -/

/-- C3: whenever `execute_command` finds no live session (no client handle,
no transport, or an inactive transport), it attempts `connect()` exactly
once before anything else; if that attempt fails the call returns
`(False, "", "Unable to connect to server")` and the command is never
executed, and if it succeeds the command is then executed. -/
theorem c3_execute_connects_first : ∀ (env : ExecEnv) (st : SshState),
    needsConnect st = true →
    (env.connectOk = false →
      (execute_command env st).result = (false, "", "Unable to connect to server") ∧
      (execute_command env st).actions = [SshAction.connectCall]) ∧
    (env.connectOk = true →
      (execute_command env st).actions = [SshAction.connectCall, SshAction.execCall]) := by
  intro env st h
  constructor
  · intro hc
    unfold execute_command sshConnect
    rw [h, hc]
    exact ⟨rfl, rfl⟩
  · intro hc
    unfold execute_command sshConnect
    rw [h, hc]
    rfl

/-- C3 witness: on a client that never connected, with a failing network,
`execute_command` returns the connection-failure triple after exactly one
connect attempt and no command execution. -/
theorem c3_execute_connects_first_witness :
    needsConnect { client := none } = true ∧
    (execute_command { connectOk := false, outcome := ExecOutcome.raised "boom" }
        { client := none }).result = (false, "", "Unable to connect to server") ∧
    (execute_command { connectOk := false, outcome := ExecOutcome.raised "boom" }
        { client := none }).actions = [SshAction.connectCall] :=
  ⟨rfl,
    ((c3_execute_connects_first { connectOk := false, outcome := ExecOutcome.raised "boom" }
      { client := none } rfl).1 rfl).1,
    ((c3_execute_connects_first { connectOk := false, outcome := ExecOutcome.raised "boom" }
      { client := none } rfl).1 rfl).2⟩

/-! ## Store lemmas -/

theorem fsGet_fsSet_self : ∀ (l : List (StorePath × List FileLine)) (p : StorePath)
    (v : List FileLine), fsGet (fsSet l p v) p = some v := by
  intro l
  induction l with
  | nil => intro p v; simp [fsSet, fsGet]
  | cons hd tl ih =>
    intro p v
    obtain ⟨q, w⟩ := hd
    by_cases h : q = p
    · subst h; simp [fsSet, fsGet]
    · simp [fsSet, fsGet, h, ih]

theorem fsGet_fsSet_ne : ∀ (l : List (StorePath × List FileLine)) (p q : StorePath)
    (v : List FileLine), q ≠ p → fsGet (fsSet l q v) p = fsGet l p := by
  intro l
  induction l with
  | nil => intro p q v h; simp [fsSet, fsGet, h]
  | cons hd tl ih =>
    intro p q v h
    obtain ⟨k, w⟩ := hd
    by_cases hk : k = q
    · subst hk; simp [fsSet, fsGet, h]
    · simp only [fsSet, if_neg hk, fsGet]
      by_cases hp : k = p
      · simp [hp]
      · simp [hp, ih p q v h]

/-- Writing a GPU's process file never touches any stats file. -/
theorem fsGet_writeProcs_stats (ts : Option String) (srv date : String) (gpu : GpuData)
    (fs : FS) (s d : String) :
    fsGet (writeProcs ts srv date gpu fs).files (StorePath.stats s d) =
      fsGet fs.files (StorePath.stats s d) := by
  unfold writeProcs
  by_cases h : gpu.processes.isEmpty
  · rw [if_pos h]
  · rw [if_neg h]
    exact fsGet_fsSet_ne _ _ _ _ (fun hEq => by cases hEq)

theorem fsExtends_refl : ∀ fs : FS, fsExtends fs fs :=
  fun _ p v h => ⟨[], by simpa using h⟩

theorem fsExtends_trans : ∀ {a b c : FS}, fsExtends a b → fsExtends b c → fsExtends a c := by
  intro a b c h1 h2 p v hv
  obtain ⟨w1, hw1⟩ := h1 p v hv
  obtain ⟨w2, hw2⟩ := h2 p (v ++ w1) hw1
  exact ⟨w1 ++ w2, by simpa [List.append_assoc] using hw2⟩

/-- Appending to one file (creating it if absent) preserves every existing
file's content as a prefix. -/
theorem fsExtends_set_append (fs : FS) (d2 : List String) (p : StorePath)
    (x : List FileLine) :
    fsExtends fs { dirs := d2, files := fsSet fs.files p (((fsGet fs.files p).getD []) ++ x) } := by
  intro q v hv
  by_cases h : p = q
  · subst h
    refine ⟨x, ?_⟩
    simp only [fsGet_fsSet_self]
    rw [hv]
    rfl
  · exact ⟨[], by simpa [fsGet_fsSet_ne _ _ _ _ h, List.append_nil] using hv⟩

theorem writeProcs_extends (ts : Option String) (srv date : String) (gpu : GpuData)
    (fs : FS) : fsExtends fs (writeProcs ts srv date gpu fs) := by
  unfold writeProcs
  by_cases h : gpu.processes.isEmpty
  · rw [if_pos h]; exact fsExtends_refl fs
  · rw [if_neg h]
    exact fsExtends_set_append fs _ _ _

/-- A `storeGpus` run — raising or not — only ever appends to files. -/
theorem storeGpus_extends : ∀ (gpus : List GpuData) (date : String) (failAt : Option Nat)
    (filename : StorePath) (ts : Option String) (srv : String) (i : Nat) (fe : Bool) (fs : FS),
    fsExtends fs (exceptState (storeGpus date failAt filename ts srv i fe fs gpus)) := by
  intro gpus
  induction gpus with
  | nil => intro date failAt filename ts srv i fe fs; exact fsExtends_refl fs
  | cons gpu rest ih =>
    intro date failAt filename ts srv i fe fs
    by_cases h : failAt = some i
    · simp only [storeGpus, if_pos h]
      exact fsExtends_refl fs
    · simp only [storeGpus, if_neg h]
      refine fsExtends_trans (fsExtends_set_append fs fs.dirs filename _)
        (fsExtends_trans (writeProcs_extends ts srv date gpu _) (ih date failAt filename ts srv (i + 1) true _))

/-- Happy-path run over an already-existing stats file: appends exactly one
row per GPU record, in order, and returns cleanly. -/
theorem storeGpus_none_content : ∀ (gpus : List GpuData) (date : String) (ts : Option String)
    (srv s d : String) (i : Nat) (fs : FS) (cur : List FileLine),
    fsGet fs.files (StorePath.stats s d) = some cur →
    ∃ fs2, storeGpus date none (StorePath.stats s d) ts srv i true fs gpus = .ok fs2 ∧
      fsGet fs2.files (StorePath.stats s d) = some (cur ++ gpus.map (rowOf ts)) := by
  intro gpus
  induction gpus with
  | nil =>
    intro date ts srv s d i fs cur hcur
    exact ⟨fs, rfl, by simpa using hcur⟩
  | cons gpu rest ih =>
    intro date ts srv s d i fs cur hcur
    have hfa : (none : Option Nat) ≠ some i := by simp
    simp only [storeGpus, if_neg hfa]
    have hstep : fsGet (writeProcs ts srv date gpu
        { fs with files := (fsSet fs.files (StorePath.stats s d)
          (((fsGet fs.files (StorePath.stats s d)).getD []) ++
            (([] : List FileLine) ++ [rowOf ts gpu]))) }).files (StorePath.stats s d) =
        some (cur ++ [rowOf ts gpu]) := by
      rw [fsGet_writeProcs_stats]
      simp only [fsGet_fsSet_self]
      rw [hcur]
      simp
    obtain ⟨fs2, hrun, hcontent⟩ := ih date ts srv s d (i + 1) _ (cur ++ [rowOf ts gpu]) hstep
    refine ⟨fs2, hrun, ?_⟩
    rw [hcontent]
    simp [List.append_assoc]

/-- Happy-path run from an absent stats file: an empty record list creates
nothing; otherwise the file ends up as one header followed by the rows. -/
theorem storeGpus_fresh_content : ∀ (gpus : List GpuData) (date : String) (ts : Option String)
    (srv s d : String) (i : Nat) (fs : FS),
    fsGet fs.files (StorePath.stats s d) = none →
    ∃ fs2, storeGpus date none (StorePath.stats s d) ts srv i false fs gpus = .ok fs2 ∧
      fsGet fs2.files (StorePath.stats s d) =
        (if gpus.isEmpty then none else some (FileLine.gpuHeader :: gpus.map (rowOf ts))) := by
  intro gpus date ts srv s d i fs habs
  cases gpus with
  | nil => exact ⟨fs, rfl, by simpa using habs⟩
  | cons gpu rest =>
    have hfa : (none : Option Nat) ≠ some i := by simp
    simp only [storeGpus, if_neg hfa]
    have hstep : fsGet (writeProcs ts srv date gpu
        { fs with files := (fsSet fs.files (StorePath.stats s d)
          (((fsGet fs.files (StorePath.stats s d)).getD []) ++
            ([FileLine.gpuHeader] ++ [rowOf ts gpu]))) }).files (StorePath.stats s d) =
        some ([FileLine.gpuHeader, rowOf ts gpu]) := by
      rw [fsGet_writeProcs_stats]
      simp only [fsGet_fsSet_self]
      rw [habs]
      simp
    obtain ⟨fs2, hrun, hcontent⟩ := storeGpus_none_content rest date ts srv s d (i + 1) _
      ([FileLine.gpuHeader, rowOf ts gpu]) hstep
    refine ⟨fs2, hrun, ?_⟩
    rw [hcontent]
    simp

/-- Failing run (oracle fires at record `j`, counting from `i`, within the
list) over an existing stats file: exactly the records before the failure
get their rows appended, then the run raises. -/
theorem storeGpus_fail_content : ∀ (gpus : List GpuData) (date : String) (ts : Option String)
    (srv s d : String) (j i : Nat) (fs : FS) (cur : List FileLine),
    fsGet fs.files (StorePath.stats s d) = some cur →
    i ≤ j → j - i < gpus.length →
    ∃ fs2, storeGpus date (some j) (StorePath.stats s d) ts srv i true fs gpus = .error fs2 ∧
      fsGet fs2.files (StorePath.stats s d) =
        some (cur ++ (gpus.take (j - i)).map (rowOf ts)) := by
  intro gpus
  induction gpus with
  | nil => intro date ts srv s d j i fs cur _ _ hlen; simp at hlen
  | cons gpu rest ih =>
    intro date ts srv s d j i fs cur hcur hij hlen
    by_cases hji : j = i
    · subst hji
      refine ⟨fs, by simp [storeGpus], ?_⟩
      simp [hcur]
    · have hlt : i < j := lt_of_le_of_ne hij (fun h => hji h.symm)
      have hfa : (some j : Option Nat) ≠ some i := by
        intro h; exact hji (Option.some.inj h)
      simp only [storeGpus, if_neg hfa]
      have hstep : fsGet (writeProcs ts srv date gpu
          { fs with files := (fsSet fs.files (StorePath.stats s d)
            (((fsGet fs.files (StorePath.stats s d)).getD []) ++
              (([] : List FileLine) ++ [rowOf ts gpu]))) }).files (StorePath.stats s d) =
          some (cur ++ [rowOf ts gpu]) := by
        rw [fsGet_writeProcs_stats]
        simp only [fsGet_fsSet_self]
        rw [hcur]
        simp
      obtain ⟨fs2, hrun, hcontent⟩ := ih date ts srv s d j (i + 1) _ (cur ++ [rowOf ts gpu])
        hstep (by omega) (by simp at hlen; omega)
      refine ⟨fs2, hrun, ?_⟩
      rw [hcontent]
      obtain ⟨k, hk⟩ : ∃ k, j - i = k + 1 := ⟨j - i - 1, by omega⟩
      have hk2 : j - (i + 1) = k := by omega
      rw [hk, hk2, List.take_succ_cons]
      simp [List.append_assoc]

/-- Whenever the failure oracle fires within the record list, the run
raises (wherever the filesystem ends up). -/
theorem storeGpus_fail_exists : ∀ (gpus : List GpuData) (date : String) (filename : StorePath)
    (ts : Option String) (srv : String) (j i : Nat) (fe : Bool) (fs : FS),
    i ≤ j → j - i < gpus.length →
    ∃ fs2, storeGpus date (some j) filename ts srv i fe fs gpus = .error fs2 := by
  intro gpus
  induction gpus with
  | nil => intro date filename ts srv j i fe fs _ hlen; simp at hlen
  | cons gpu rest ih =>
    intro date filename ts srv j i fe fs hij hlen
    by_cases hji : j = i
    · subst hji
      exact ⟨fs, by simp [storeGpus]⟩
    · have hfa : (some j : Option Nat) ≠ some i := by
        intro h; exact hji (Option.some.inj h)
      simp only [storeGpus, if_neg hfa]
      exact ih date filename ts srv j (i + 1) true _ (by omega) (by simp at hlen; omega)

/-- Unfolding of `store_data` once the server name is known present and
nonempty. -/
theorem store_data_run (date : String) (failAt : Option Nat) (fs : FS) (data : SnapshotData)
    (srv : String) (hs : data.server = some srv) (hne : srv ≠ "") :
    store_data date failAt fs data =
      match storeGpus date failAt (StorePath.stats srv date) data.timestamp srv 0
        ((fsGet fs.files (StorePath.stats srv date)).isSome)
        { fs with dirs := addDir fs.dirs srv } data.gpus with
      | .ok fs2 => (fs2, true)
      | .error fs2 => (fs2, false) := by
  unfold store_data
  rw [hs]
  simp [hne]

/-- No data row is ever a header line. -/
theorem countP_rows_zero : ∀ (ts : Option String) (gpus : List GpuData),
    (gpus.map (rowOf ts)).countP isGpuHeader = 0 := by
  intro ts gpus
  induction gpus with
  | nil => rfl
  | cons g rest ih => simp [List.countP_cons, rowOf, isGpuHeader, ih]

/-- Failing run from an absent stats file, oracle firing strictly after the
first record: header plus the rows before the failure get written, then the
run raises. -/
theorem storeGpus_fresh_fail : ∀ (gpus : List GpuData) (date : String) (ts : Option String)
    (srv s d : String) (j i : Nat) (fs : FS),
    fsGet fs.files (StorePath.stats s d) = none →
    i < j → j - i < gpus.length →
    ∃ fs2, storeGpus date (some j) (StorePath.stats s d) ts srv i false fs gpus = .error fs2 ∧
      fsGet fs2.files (StorePath.stats s d) =
        some (FileLine.gpuHeader :: (gpus.take (j - i)).map (rowOf ts)) := by
  intro gpus date ts srv s d j i fs habs hij hlen
  cases gpus with
  | nil => simp at hlen
  | cons gpu rest =>
    have hfa : (some j : Option Nat) ≠ some i := by
      intro h; have := Option.some.inj h; omega
    simp only [storeGpus, if_neg hfa]
    have hstep : fsGet (writeProcs ts srv date gpu
        { fs with files := (fsSet fs.files (StorePath.stats s d)
          (((fsGet fs.files (StorePath.stats s d)).getD []) ++
            ([FileLine.gpuHeader] ++ [rowOf ts gpu]))) }).files (StorePath.stats s d) =
        some ([FileLine.gpuHeader, rowOf ts gpu]) := by
      rw [fsGet_writeProcs_stats]
      simp only [fsGet_fsSet_self]
      rw [habs]
      simp
    obtain ⟨fs2, hrun, hcontent⟩ := storeGpus_fail_content rest date ts srv s d j (i + 1) _
      ([FileLine.gpuHeader, rowOf ts gpu]) hstep (by omega) (by simp at hlen; omega)
    refine ⟨fs2, hrun, ?_⟩
    rw [hcontent]
    obtain ⟨k, hk⟩ : ∃ k, j - i = k + 1 := ⟨j - i - 1, by omega⟩
    have hk2 : j - (i + 1) = k := by omega
    rw [hk, hk2, List.take_succ_cons]
    simp

/-! ## Store claims -/

/-- C6 (amended): starting from a day with no stats file for the server,
two `store_data` calls for the same server and day — at least one of them
carrying a GPU record — leave the per-day stats file holding exactly one
header line followed by the N + M data rows of the two snapshots in call
order; the header was written only by the call that first created the file.
(When both snapshots are empty no file is created at all, which is what the
counterexample exhibits against the unamended claim.) -/
theorem c6_two_store_calls : ∀ (date srv : String) (fs0 : FS) (d1 d2 : SnapshotData),
    d1.server = some srv → d2.server = some srv → srv ≠ "" →
    fsGet fs0.files (StorePath.stats srv date) = none →
    d1.gpus ++ d2.gpus ≠ [] →
    (store_data date none fs0 d1).2 = true ∧
    (store_data date none (store_data date none fs0 d1).1 d2).2 = true ∧
    fsGet (store_data date none (store_data date none fs0 d1).1 d2).1.files
        (StorePath.stats srv date) =
      some (FileLine.gpuHeader ::
        (d1.gpus.map (rowOf d1.timestamp) ++ d2.gpus.map (rowOf d2.timestamp))) ∧
    (FileLine.gpuHeader ::
        (d1.gpus.map (rowOf d1.timestamp) ++ d2.gpus.map (rowOf d2.timestamp))).countP
      isGpuHeader = 1 ∧
    (FileLine.gpuHeader ::
        (d1.gpus.map (rowOf d1.timestamp) ++ d2.gpus.map (rowOf d2.timestamp))).length =
      1 + (d1.gpus.length + d2.gpus.length) := by
  intro date srv fs0 d1 d2 h1 h2 hne habs hnonempty
  obtain ⟨fsA, hrunA, hcontA⟩ := storeGpus_fresh_content d1.gpus date d1.timestamp srv srv date 0
    { fs0 with dirs := addDir fs0.dirs srv } habs
  have e1 : store_data date none fs0 d1 = (fsA, true) := by
    rw [store_data_run date none fs0 d1 srv h1 hne]
    rw [habs]
    simp only [Option.isSome_none, hrunA]
  have e1fst : (store_data date none fs0 d1).1 = fsA := by rw [e1]
  have e1snd : (store_data date none fs0 d1).2 = true := by rw [e1]
  have hcount : (FileLine.gpuHeader ::
      (d1.gpus.map (rowOf d1.timestamp) ++ d2.gpus.map (rowOf d2.timestamp))).countP
        isGpuHeader = 1 := by
    rw [List.countP_cons, List.countP_append, countP_rows_zero, countP_rows_zero]
    decide
  have hlen : (FileLine.gpuHeader ::
      (d1.gpus.map (rowOf d1.timestamp) ++ d2.gpus.map (rowOf d2.timestamp))).length =
      1 + (d1.gpus.length + d2.gpus.length) := by
    simp [List.length_append, List.length_map]
    omega
  cases hg1 : d1.gpus with
  | nil =>
    rw [hg1] at hcontA
    simp only [List.isEmpty_nil, if_true] at hcontA
    cases hg2 : d2.gpus with
    | nil =>
      exfalso
      rw [hg1, hg2] at hnonempty
      exact hnonempty rfl
    | cons q qs =>
      obtain ⟨fsB, hrunB, hcontB⟩ := storeGpus_fresh_content d2.gpus date d2.timestamp srv srv
        date 0 { fsA with dirs := addDir fsA.dirs srv } hcontA
      have e2 : store_data date none fsA d2 = (fsB, true) := by
        rw [store_data_run date none fsA d2 srv h2 hne]
        rw [hcontA]
        simp only [Option.isSome_none, hrunB]
      have e2fst : (store_data date none fsA d2).1 = fsB := by rw [e2]
      have e2snd : (store_data date none fsA d2).2 = true := by rw [e2]
      rw [hg2] at hcontB
      simp at hcontB
      rw [hg1, hg2] at hcount hlen
      refine ⟨e1snd, by rw [e1fst]; exact e2snd, ?_, hcount, hlen⟩
      rw [e1fst, e2fst, hcontB]
      simp
  | cons g gs =>
    rw [hg1] at hcontA
    simp at hcontA
    obtain ⟨fsB, hrunB, hcontB⟩ := storeGpus_none_content d2.gpus date d2.timestamp srv srv
      date 0 { fsA with dirs := addDir fsA.dirs srv } _ hcontA
    have e2 : store_data date none fsA d2 = (fsB, true) := by
      rw [store_data_run date none fsA d2 srv h2 hne]
      rw [hcontA]
      simp only [Option.isSome_some, hrunB]
    have e2fst : (store_data date none fsA d2).1 = fsB := by rw [e2]
    have e2snd : (store_data date none fsA d2).2 = true := by rw [e2]
    rw [hg1] at hcount hlen
    refine ⟨e1snd, by rw [e1fst]; exact e2snd, ?_, hcount, hlen⟩
    rw [e1fst, e2fst, hcontB]
    simp

/-- C7: persistence failures and the collector's retry policy are decoupled:
an I/O failure inside `store_data` surfaces only as a `False` return (the
`except` catches the raise; the call is total and returns `false` whenever
the failure oracle fires inside the GPU loop), and the collector ignores the
callback's return value entirely — a cycle whose callback returned `False`
continues exactly like one whose callback returned `True`, with the failure
counter reset to 0. -/
theorem c7_store_failures_decoupled :
    (∀ (date : String) (j : Nat) (fs : FS) (data : SnapshotData) (srv : String),
      data.server = some srv → srv ≠ "" → j < data.gpus.length →
      (store_data date (some j) fs data).2 = false) ∧
    (∀ (m r : Nat) (b : Bool) (rest : List CycleEvent),
      collectLoop m r (CycleEvent.success b :: rest) =
        (collectLoop m 0 rest).map (fun p => (p.1, LoopAction.sleep :: p.2))) := by
  constructor
  · intro date j fs data srv hs hne hlen
    rw [store_data_run date (some j) fs data srv hs hne]
    obtain ⟨fs2, herr⟩ := storeGpus_fail_exists data.gpus date (StorePath.stats srv date)
      data.timestamp srv j 0 ((fsGet fs.files (StorePath.stats srv date)).isSome)
      { fs with dirs := addDir fs.dirs srv } (by omega) (by omega)
    rw [herr]
  · intro m r b rest; rfl

/-- C9: `store_data` is not atomic on error: when the I/O failure hits the
`j`-th GPU record (`j ≥ 1`) of a snapshot written to a fresh per-day file,
the call returns `False`, yet the stats file holds the header and the rows
of the first `j` records; moreover every pre-existing file's content
survives as a prefix (the store only appends), so a `False` return does not
mean nothing was persisted. -/
theorem c9_store_not_atomic : ∀ (date srv : String) (fs0 : FS) (data : SnapshotData) (j : Nat),
    data.server = some srv → srv ≠ "" →
    fsGet fs0.files (StorePath.stats srv date) = none →
    1 ≤ j → j < data.gpus.length →
    (store_data date (some j) fs0 data).2 = false ∧
    fsGet (store_data date (some j) fs0 data).1.files (StorePath.stats srv date) =
      some (FileLine.gpuHeader :: (data.gpus.take j).map (rowOf data.timestamp)) ∧
    (∀ p v, fsGet fs0.files p = some v →
      ∃ w, fsGet (store_data date (some j) fs0 data).1.files p = some (v ++ w)) := by
  intro date srv fs0 data j hs hne habs hj1 hjlen
  obtain ⟨fs2, herr, hcont⟩ := storeGpus_fresh_fail data.gpus date data.timestamp srv srv date j 0
    { fs0 with dirs := addDir fs0.dirs srv } habs (by omega) (by omega)
  have e : store_data date (some j) fs0 data = (fs2, false) := by
    rw [store_data_run date (some j) fs0 data srv hs hne]
    rw [habs]
    simp only [Option.isSome_none, herr]
  have hext : fsExtends { fs0 with dirs := addDir fs0.dirs srv } fs2 := by
    have h := storeGpus_extends data.gpus date (some j) (StorePath.stats srv date)
      data.timestamp srv 0 false { fs0 with dirs := addDir fs0.dirs srv }
    rw [herr] at h
    exact h
  refine ⟨by rw [e], ?_, ?_⟩
  · rw [e]
    rw [hcont]
    simp
  · intro p v hv
    rw [e]
    exact hext p v hv

/-- C10: a snapshot whose server name is absent or empty makes `store_data`
return `False` with the filesystem untouched — no directory and no file is
created (the check precedes `_get_date_filename`). -/
theorem c10_missing_server_noop : ∀ (date : String) (failAt : Option Nat) (fs : FS)
    (data : SnapshotData),
    data.server = none ∨ data.server = some "" →
    store_data date failAt fs data = (fs, false) := by
  intro date failAt fs data h
  cases h with
  | inl h => unfold store_data; rw [h]
  | inr h => unfold store_data; rw [h]; simp

/-! ## Sample data shared by the concrete witnesses -/

/-- The GPU record parsed from the specification's end-to-end example stats
row `"0, TestGPU, 10, 5, 8000, 2000, 6000, 45, 20.5, 70, 30"` with uuid
table `"0, GPU-abc"`. -/
def sampleGpu : GpuData :=
  { index := 0, name := "TestGPU", uuid := "GPU-abc", utilization_gpu := "10"
    utilization_memory := "5", memory_total := "8000", memory_used := "2000"
    memory_free := "6000", temperature := "45", power_draw := "20.5"
    power_limit := "70", fan_speed := some "30", processes := [] }

/-- A second GPU record on the same server. -/
def sampleGpu2 : GpuData := { sampleGpu with index := 1, uuid := "GPU-def" }

/-- A one-GPU snapshot for server `web1`. -/
def sampleSnap1 : SnapshotData := { timestamp := some "t1", server := some "web1", gpus := [sampleGpu] }

/-- Another one-GPU snapshot for server `web1`. -/
def sampleSnap2 : SnapshotData := { timestamp := some "t2", server := some "web1", gpus := [sampleGpu2] }

/-- A two-GPU snapshot for server `web1`. -/
def sampleSnapTwo : SnapshotData :=
  { timestamp := some "t1", server := some "web1", gpus := [sampleGpu, sampleGpu2] }

/-- The empty data directory. -/
def emptyFS : FS := { dirs := [], files := [] }

/-- C6 counterexample to the unamended claim: two successful `store_data`
calls for the same server and day whose snapshots hold zero GPU records
produce no stats file at all — in particular no file with "exactly one
header line followed by N + M = 0 data rows". -/
theorem c6_counterexample :
    (store_data "2026-10-12" none emptyFS
      { timestamp := some "t1", server := some "web1", gpus := [] }).2 = true ∧
    (store_data "2026-10-12" none
      (store_data "2026-10-12" none emptyFS
        { timestamp := some "t1", server := some "web1", gpus := [] }).1
      { timestamp := some "t2", server := some "web1", gpus := [] }).2 = true ∧
    fsGet (store_data "2026-10-12" none
      (store_data "2026-10-12" none emptyFS
        { timestamp := some "t1", server := some "web1", gpus := [] }).1
      { timestamp := some "t2", server := some "web1", gpus := [] }).1.files
      (StorePath.stats "web1" "2026-10-12") = none :=
  ⟨rfl, rfl, rfl⟩

/-- C6 witness: two one-record snapshots for `web1` on the same day leave
the stats file as one header followed by the two rows. -/
theorem c6_two_store_calls_witness :
    fsGet (store_data "2026-10-12" none
        (store_data "2026-10-12" none emptyFS sampleSnap1).1 sampleSnap2).1.files
      (StorePath.stats "web1" "2026-10-12") =
    some (FileLine.gpuHeader ::
      (sampleSnap1.gpus.map (rowOf sampleSnap1.timestamp) ++
        sampleSnap2.gpus.map (rowOf sampleSnap2.timestamp))) :=
  (c6_two_store_calls "2026-10-12" "web1" emptyFS sampleSnap1 sampleSnap2 rfl rfl
    (by decide) rfl (by decide)).2.2.1

/-- C7 witness: an I/O failure at the very first record makes `store_data`
return `False`, and a cycle with a `False`-returning callback continues
exactly like a successful one. -/
theorem c7_store_failures_decoupled_witness :
    (store_data "2026-10-12" (some 0) emptyFS sampleSnap1).2 = false ∧
    collectLoop 3 2 [CycleEvent.success false] =
      (collectLoop 3 0 []).map (fun p => (p.1, LoopAction.sleep :: p.2)) :=
  ⟨c7_store_failures_decoupled.1 "2026-10-12" 0 emptyFS sampleSnap1 "web1" rfl (by decide)
      (by decide),
    c7_store_failures_decoupled.2 3 2 false []⟩

/-- C9 witness: failing at the second record of a fresh two-record snapshot
returns `False` yet leaves the header and the first record's row on disk. -/
theorem c9_store_not_atomic_witness :
    (store_data "2026-10-12" (some 1) emptyFS sampleSnapTwo).2 = false ∧
    fsGet (store_data "2026-10-12" (some 1) emptyFS sampleSnapTwo).1.files
        (StorePath.stats "web1" "2026-10-12") =
      some (FileLine.gpuHeader ::
        (sampleSnapTwo.gpus.take 1).map (rowOf sampleSnapTwo.timestamp)) :=
  ⟨(c9_store_not_atomic "2026-10-12" "web1" emptyFS sampleSnapTwo 1 rfl (by decide) rfl
      (by decide) (by decide)).1,
    (c9_store_not_atomic "2026-10-12" "web1" emptyFS sampleSnapTwo 1 rfl (by decide) rfl
      (by decide) (by decide)).2.1⟩

/-- C10 witness: a snapshot with no server key changes nothing and returns
`False`. -/
theorem c10_missing_server_noop_witness :
    store_data "2026-10-12" none emptyFS
      { timestamp := some "t", server := none, gpus := [sampleGpu] } = (emptyFS, false) :=
  c10_missing_server_noop "2026-10-12" none emptyFS
    { timestamp := some "t", server := none, gpus := [sampleGpu] } (Or.inl rfl)

/-! ## Parser lemmas -/

/-- When every line of the stats table parses without raising, the stats
loop returns the per-line records appended in line order. -/
theorem parseStatsGo_ok : ∀ (lines : List String) (m : List (String × String))
    (gpus : List GpuData),
    (∀ l ∈ lines, parseOk (parseStatsLine m l) = true) →
    parseStatsGo m gpus lines = .ok (gpus ++ lines.filterMap (statsLineRecord? m)) := by
  intro lines
  induction lines with
  | nil => intro m gpus _; simp [parseStatsGo]
  | cons l ls ih =>
    intro m gpus h
    have hl := h l (List.mem_cons_self l ls)
    cases hline : parseStatsLine m l with
    | error e => rw [hline] at hl; simp [parseOk] at hl
    | ok r =>
      have hrec : statsLineRecord? m l = r := by unfold statsLineRecord?; rw [hline]
      cases r with
      | none =>
        simp only [parseStatsGo, hline]
        rw [ih m gpus (fun x hx => h x (List.mem_cons_of_mem l hx))]
        rw [List.filterMap_cons, hrec]
      | some g =>
        simp only [parseStatsGo, hline]
        rw [ih m (gpus ++ [g]) (fun x hx => h x (List.mem_cons_of_mem l hx))]
        rw [List.filterMap_cons, hrec]
        simp [List.append_assoc]

/-- A stats line with fewer than 11 comma-separated fields (blank lines
included) is skipped without error. -/
theorem parseStatsLine_short : ∀ (m : List (String × String)) (line : String),
    (splitTrim line).length < 11 → parseStatsLine m line = .ok none := by
  intro m line hlen
  unfold parseStatsLine
  by_cases hb : pystrip line = ""
  · rw [if_pos hb]
  · rw [if_neg hb]
    split
    · rename_i idx name ug um mt mu mf t pd pl fan heq
      rw [heq] at hlen
      simp at hlen
    · rw [if_neg (by omega)]

/-- A stats line that yields a record resolves its uuid through the mapping
built from the UUID table, with `"unknown"` as the default. -/
theorem statsLineRecord_uuid : ∀ (m : List (String × String)) (line : String) (g : GpuData),
    statsLineRecord? m line = some g →
    g.uuid = (dictGet m ((splitTrim line).headD "")).getD "unknown" := by
  intro m line g hrec
  unfold statsLineRecord? at hrec
  cases hline : parseStatsLine m line with
  | error e => rw [hline] at hrec; simp at hrec
  | ok r =>
    rw [hline] at hrec
    have hr : r = some g := hrec
    subst hr
    unfold parseStatsLine at hline
    by_cases hb : pystrip line = ""
    · rw [if_pos hb] at hline; simp at hline
    · rw [if_neg hb] at hline
      split at hline
      · rename_i idx name ug um mt mu mf t pd pl fan heq
        split at hline
        · simp only [Except.ok.injEq, Option.some.injEq] at hline
          rw [heq, ← hline]
          rfl
        · simp at hline
      · split at hline
        · simp at hline
        · simp at hline

/-- When every line of the process table parses without raising, the
process loop folds the extracted rows through `attachProcess` in line
order. -/
theorem parseProcsGo_ok : ∀ (lines : List String) (gpus : List GpuData),
    (∀ l ∈ lines, parseOk (parseProcLine l) = true) →
    parseProcsGo gpus lines = .ok (procFold gpus (lines.filterMap procLineRow?)) := by
  intro lines
  induction lines with
  | nil => intro gpus _; simp [parseProcsGo, procFold]
  | cons l ls ih =>
    intro gpus h
    have hl := h l (List.mem_cons_self l ls)
    cases hline : parseProcLine l with
    | error e => rw [hline] at hl; simp [parseOk] at hl
    | ok r =>
      have hrec : procLineRow? l = r := by unfold procLineRow?; rw [hline]
      cases r with
      | none =>
        simp only [parseProcsGo, hline]
        rw [ih gpus (fun x hx => h x (List.mem_cons_of_mem l hx))]
        rw [List.filterMap_cons, hrec]
      | some up =>
        obtain ⟨u, p⟩ := up
        simp only [parseProcsGo, hline]
        rw [ih (attachProcess gpus u p) (fun x hx => h x (List.mem_cons_of_mem l hx))]
        rw [List.filterMap_cons, hrec]
        rfl

/-- Attaching a process modifies only `processes` fields: the records, their
order and every other field survive. -/
theorem attachProcess_map_withoutProcs : ∀ (gpus : List GpuData) (u : String) (p : ProcessData),
    (attachProcess gpus u p).map withoutProcs = gpus.map withoutProcs := by
  intro gpus u p
  induction gpus with
  | nil => rfl
  | cons g rest ih =>
    unfold attachProcess
    by_cases h : g.uuid = u
    · rw [if_pos h]
      simp only [List.map_cons, ih]
      rfl
    · rw [if_neg h]
      simp only [List.map_cons, ih]

/-- Folding any number of process rows preserves the record sequence up to
`processes` fields. -/
theorem procFold_map_withoutProcs : ∀ (rows : List (String × ProcessData)) (gpus : List GpuData),
    (procFold gpus rows).map withoutProcs = gpus.map withoutProcs := by
  intro rows
  induction rows with
  | nil => intro gpus; rfl
  | cons r rest ih =>
    intro gpus
    show (procFold (attachProcess gpus r.1 r.2) rest).map withoutProcs = _
    rw [ih, attachProcess_map_withoutProcs]

/-- A process row whose uuid matches no record is dropped: the record list
is returned unchanged. -/
theorem attachProcess_no_match : ∀ (gpus : List GpuData) (u : String) (p : ProcessData),
    (∀ g ∈ gpus, g.uuid ≠ u) → attachProcess gpus u p = gpus := by
  intro gpus u p
  induction gpus with
  | nil => intro _; rfl
  | cons g rest ih =>
    intro h
    unfold attachProcess
    rw [if_neg (h g (List.mem_cons_self g rest))]
    rw [ih (fun x hx => h x (List.mem_cons_of_mem g hx))]

/-- A process row is appended to the first record, in list order, whose uuid
matches; the records before and after it are untouched. -/
theorem attachProcess_first_match : ∀ (pre : List GpuData) (g : GpuData) (post : List GpuData)
    (u : String) (p : ProcessData),
    (∀ q ∈ pre, q.uuid ≠ u) → g.uuid = u →
    attachProcess (pre ++ g :: post) u p =
      pre ++ { g with processes := g.processes ++ [p] } :: post := by
  intro pre
  induction pre with
  | nil =>
    intro g post u p _ hg
    simp only [List.nil_append]
    unfold attachProcess
    rw [if_pos hg]
  | cons q pre ih =>
    intro g post u p h hg
    simp only [List.cons_append]
    unfold attachProcess
    rw [if_neg (h q (List.mem_cons_self q pre))]
    rw [ih g post u p (fun x hx => h x (List.mem_cons_of_mem q hx)) hg]

/-! ## Parser claims -/

/-- C5 (amended): a stats line with fewer than 11 comma-separated fields is
skipped, leaving the other lines unaffected; provided no line raises (i.e.
no line has more than 11 fields or a failed numeric conversion — such a
line aborts the whole parse with a `ValueError`, as the counterexample
shows), the parse succeeds and each line with exactly 11 well-formed fields
becomes exactly one GPURecord, in line order, with its uuid taken from the
index-to-uuid mapping and defaulting to the literal `"unknown"` when the
index is absent. -/
theorem c5_stats_row_parsing : ∀ (m : List (String × String)) (blob : String),
    (∀ line ∈ pysplit '\n' (pystrip blob), parseOk (parseStatsLine m line) = true) →
    parseStats m blob = .ok ((pysplit '\n' (pystrip blob)).filterMap (statsLineRecord? m)) ∧
    (∀ line, (splitTrim line).length < 11 → parseStatsLine m line = .ok none) ∧
    (∀ line g, statsLineRecord? m line = some g →
      g.uuid = (dictGet m ((splitTrim line).headD "")).getD "unknown") := by
  intro m blob h
  refine ⟨?_, parseStatsLine_short m, statsLineRecord_uuid m⟩
  unfold parseStats
  simpa using parseStatsGo_ok (pysplit '\n' (pystrip blob)) m [] h

/-- C5 counterexample to the unamended claim: a stats line with 12 fields —
"at least 11" — does not become a GPURecord; the tuple unpacking raises
`ValueError` and the whole parse aborts, producing no records at all. -/
theorem c5_counterexample :
    collectParse "0,A,1,2,3,4,5,6,7,8,9,x" "0, U" "" =
      Except.error "ValueError: too many values to unpack (expected 11)" := rfl

/-- C5 witness: the specification's example stats row followed by a
10-field-short line `"bad, row"` parses to exactly the one record, the short
line being skipped. -/
theorem c5_stats_row_parsing_witness :
    parseStats [("0", "GPU-abc")]
      "0, TestGPU, 10, 5, 8000, 2000, 6000, 45, 20.5, 70, 30\nbad, row" =
      Except.ok [sampleGpu] :=
  (c5_stats_row_parsing [("0", "GPU-abc")]
    "0, TestGPU, 10, 5, 8000, 2000, 6000, 45, 20.5, 70, 30\nbad, row" (by decide)).1

/-- C4 (amended): given that the UUID table and the stats table parse (to
mapping `m` and records `gpus`) and that no process line raises (i.e. no
line has more than 4 fields or a failed numeric conversion — such a line
aborts the whole parse with a `ValueError`, as the counterexample shows),
the parser returns the stats-table records in stats-line order with each
extracted process row folded in; the fold changes nothing but `processes`
fields (so order and record data are preserved); an empty process blob
yields the records untouched and no failure; a row matching no record is
dropped without error; and a matching row is appended to the first record,
in order, whose uuid equals the row's gpu_uuid. -/
theorem c4_process_attachment : ∀ (a b c : String) (m : List (String × String))
    (gpus : List GpuData),
    parseUuidMap b = .ok m → parseStats m a = .ok gpus →
    (∀ line ∈ pysplit '\n' (pystrip c), parseOk (parseProcLine line) = true) →
    collectParse a b c = .ok (procFold gpus ((pysplit '\n' (pystrip c)).filterMap procLineRow?)) ∧
    (procFold gpus ((pysplit '\n' (pystrip c)).filterMap procLineRow?)).map withoutProcs =
      gpus.map withoutProcs ∧
    collectParse a b "" = .ok gpus ∧
    (∀ gs u p, (∀ g ∈ gs, g.uuid ≠ u) → attachProcess gs u p = gs) ∧
    (∀ pre g post u p, (∀ q ∈ pre, q.uuid ≠ u) → g.uuid = u →
      attachProcess (pre ++ g :: post) u p =
        pre ++ { g with processes := g.processes ++ [p] } :: post) := by
  intro a b c m gpus hb ha hc
  refine ⟨?_, procFold_map_withoutProcs _ gpus, ?_, attachProcess_no_match,
    attachProcess_first_match⟩
  · unfold collectParse
    simp only [hb, ha]
    exact parseProcsGo_ok _ gpus hc
  · unfold collectParse
    simp only [hb, ha]
    rfl

/-- C4 counterexample to the unamended claim: a process row with 5 fields —
"at least 4" — is not appended to the matching GPURecord; the tuple
unpacking raises `ValueError` and the whole parse aborts. -/
theorem c4_counterexample :
    collectParse "0, TestGPU, 10, 5, 8000, 2000, 6000, 45, 20.5, 70, 30" "0, GPU-abc"
      "123, python, GPU-abc, 512, extra" =
      Except.error "ValueError: too many values to unpack (expected 4)" := rfl

/-- C4 witness: the specification's end-to-end example — one GPU, one
matching process row — attaches the process to the record. -/
theorem c4_process_attachment_witness :
    collectParse "0, TestGPU, 10, 5, 8000, 2000, 6000, 45, 20.5, 70, 30" "0, GPU-abc"
      "123, python, GPU-abc, 512" =
      Except.ok [{ sampleGpu with
        processes := [{ pid := 123, name := "python", used_memory := "512" }] }] :=
  (c4_process_attachment "0, TestGPU, 10, 5, 8000, 2000, 6000, 45, 20.5, 70, 30" "0, GPU-abc"
    "123, python, GPU-abc, 512" [("0", "GPU-abc")] [sampleGpu] rfl rfl (by decide)).1
